import Mathlib

/-!
Verification of the trick/catch/grind state machine of Manual-X (`app.py`).

The Python class state is embedded as the structure `AppState`; times and
coordinates are rationals, the per-tick cached clock `self._current_time` is
the field `current_time`.  Methods that only mutate `self` become functions
`AppState → AppState`; methods that additionally fire sounds return the list
of sounds played, in order.  Dictionaries that are literal in `__init__`
(`trick_map`, `grind_trick_map`, ...) become top-level association lists in
the same insertion order; data loaded from asset files (`animation_metadata`,
`animation_maps`) stays abstract as state fields.
-/

/-- The five symbolic hand regions produced by `_get_hand_direction`. -/
inductive HandRegion where
  | center | up | down | left | right
deriving DecidableEq, Repr

/-- Sound effects fired by the state machine (fire-and-forget audio calls). -/
inductive Sound where
  | pop | catchSnd | land | success | fail | death | cancelTrick
  | foot1 | foot2 | grindLoop | wheels
deriving DecidableEq, Repr

/-- The exit reason string passed to `_exit_grind`. -/
inductive GrindExit where
  | railEnd | manual
deriving DecidableEq, Repr

/-- One rail obstacle, an entry of `self.rails` (`_spawn_rail`). -/
structure Rail where
  x : ℚ
  y : ℚ
  width : ℚ
  height : ℚ
deriving DecidableEq, Repr

/-- The fields of the application object touched by the trick/catch/grind
state machine of `app.py` (initial values as in `__init__`). -/
structure AppState where
  airborne : Bool := false
  grinding : Bool := false
  dead : Bool := false
  in_grind_window : Bool := false
  holding_grind_trick : Bool := false
  catch_required : Bool := false
  catch_success : Bool := false
  catch_attempted : Bool := false
  animation_completed : Bool := false
  landing_success : Bool := false
  wheels_sound_playing : Bool := false
  wheels_rolling_sound : Bool := false
  hands : HandRegion × HandRegion := (.center, .center)
  last_hand_combination : HandRegion × HandRegion := (.center, .center)
  current_animation : Option String := none
  current_trick_name : Option String := none
  original_flip_trick : Option String := none
  pending_grind_trick : Option String := none
  grind_trick : Option String := none
  animation_frame : Nat := 0
  animation_timer : ℚ := 0
  current_time : ℚ := 0
  trick_start_time : ℚ := 0
  catch_window_start : ℚ := 0
  catch_feedback_timer : ℚ := 0
  death_timer : ℚ := 0
  grind_window_start_time : ℚ := 0
  grind_start_time : ℚ := 0
  grind_hold_start_time : ℚ := 0
  landing_feedback_timer : ℚ := 0
  move_speed : ℚ := 30
  perfect_catch_frames : List Nat := []
  rails : List Rail := []
  skateboard_center_x : ℚ := 0
  display_center_y : ℚ := 0
  animation_metadata : List (String × Nat) := []
  animation_maps : List String := []
  angle : ℚ × ℚ := (0, 0)
  trick_start_angle : ℚ × ℚ := (0, 0)
  landing_angle : ℚ × ℚ := (0, 0)
  grind_offset : ℚ × ℚ := (0, 0)
deriving DecidableEq, Repr

/-! Timing and speed constants set once in `__init__`. -/

def trick_hold_duration : ℚ := 0.2
def catch_window_duration : ℚ := 1.0
def death_duration : ℚ := 0.2
def grind_window_duration : ℚ := 1
def min_grind_duration : ℚ := 0.3
def grind_hold_duration : ℚ := 0.15
def animation_speed : ℚ := 0.05
def shuv_spin_speed : ℚ := 1
def flip_spin_speed : ℚ := 1.5
def varial_spin_speed : ℚ := 1.5

/-! Python numeric helpers used by the angle code. -/

/-- Python's `%` on reals with positive modulus: `a - b * ⌊a / b⌋`. -/
def pymod (a b : ℚ) : ℚ := a - b * ⌊a / b⌋

/-- Python 3's built-in `round`: nearest integer, ties to the even one. -/
def pyround (q : ℚ) : ℤ :=
  if q - ⌊q⌋ = 1/2 then (if 2 ∣ ⌊q⌋ then ⌊q⌋ else ⌊q⌋ + 1) else round q

/-- The angle quantization of `get_sprite_position` (applied to each of the
shuv and flip angles): `angle % 360`, then `round(angle / 15) * 15`. -/
def quantize (a : ℚ) : ℤ := pyround (pymod a 360 / 15) * 15

/-- `set_angle`: rounds each angle to the nearest multiple of 15 (with no
prior normalization) and stores the pair. -/
def set_angle (s : AppState) (shuv_angle flip_angle : ℚ) : AppState :=
  { s with angle := ((pyround (shuv_angle / 15) * 15 : ℤ),
                     (pyround (flip_angle / 15) * 15 : ℤ)) }

/-- `_get_hand_direction`: keys are `[up, left, down, right]`. -/
def get_hand_direction (keys0 keys1 keys2 keys3 : Bool) : HandRegion :=
  if keys0 && (keys1 || keys3) then .up
  else if keys0 then .up
  else if keys2 && keys1 then .left
  else if keys2 && keys3 then .down
  else if keys2 then .down
  else if keys1 then .left
  else if keys3 then .right
  else .center

/-- `self.trick_map` literal, in insertion order. -/
def trick_map : List (String × (HandRegion × HandRegion)) :=
  [("BS-Shuv-It", (.down, .center)),
   ("FS-Shuv-It", (.up, .center)),
   ("Nollie BS-Shuv-It", (.center, .down)),
   ("Nollie FS-Shuv-It", (.center, .up)),
   ("Kickflip", (.left, .down)),
   ("Heelflip", (.left, .up)),
   ("Nollie Kickflip", (.down, .right)),
   ("Nollie Heelflip", (.up, .right)),
   ("Varial Kickflip", (.down, .down)),
   ("Varial Heelflip", (.up, .up)),
   ("Inward Heelflip", (.down, .up)),
   ("Hardflip", (.up, .down))]

/-- `self.grind_trick_map` literal, in insertion order. -/
def grind_trick_map : List (String × (HandRegion × HandRegion)) :=
  [("Nose Grind", (.left, .left)),
   ("5-0 Grind", (.right, .right)),
   ("Tailslide", (.up, .up)),
   ("Noseslide", (.down, .down)),
   ("Crooked Grind", (.down, .right)),
   ("Overcrooked Grind", (.up, .right)),
   ("Smith Grind", (.left, .down)),
   ("Feeble Grind", (.left, .up)),
   ("Frontside Boardslide", (.down, .up)),
   ("Backside Boardslide", (.up, .down)),
   ("50-50 Grind", (.right, .left)),
   ("Salad Grind", (.right, .up)),
   ("Suski Grind", (.right, .down))]

/-- `self.grind_positions`: every grind trick maps to offset `(0, 0)`. -/
def grind_positions : List (String × (ℚ × ℚ)) :=
  [("50-50 Grind", (0, 0)), ("Nose Grind", (0, 0)), ("Tailslide", (0, 0)),
   ("Noseslide", (0, 0)), ("Crooked Grind", (0, 0)),
   ("Overcrooked Grind", (0, 0)), ("Smith Grind", (0, 0)),
   ("Feeble Grind", (0, 0)), ("Salad Grind", (0, 0)),
   ("Suski Grind", (0, 0)), ("Frontside Boardslide", (0, 0)),
   ("Backside Boardslide", (0, 0)), ("5-0 Grind", (0, 0))]

/-- `self.animation_loops` literal: the empty dict (every `.get` that
consults it falls back to the default `True`). -/
def animation_loops : List (String × Bool) := []

/-- Association-list lookup, mirroring Python `dict` lookup / iteration
order for the literal maps above. -/
def assoc_find {α : Type} (m : List (String × α)) (key : String) : Option α :=
  (m.find? (fun p => p.1 = key)).map (·.2)

/-- `_check_trick_combination`: first trick of `trick_map` whose required
hand pair equals the current hands; `None` when both hands are center. -/
def check_trick_combination (hands : HandRegion × HandRegion) : Option String :=
  if hands = (.center, .center) then none
  else (trick_map.find? (fun p => p.2 = hands)).map (·.1)

/-- `_get_trick_spin_speed`: spin-speed class per trick name. -/
def get_trick_spin_speed (trick_name : String) : ℚ :=
  let shuv_tricks := ["BS-Shuv-It", "FS-Shuv-It", "Nollie BS-Shuv-It", "Nollie FS-Shuv-It"]
  let flip_tricks := ["Kickflip", "Heelflip", "Nollie Kickflip", "Nollie Heelflip"]
  let varial_tricks := ["Varial Kickflip", "Varial Heelflip", "Hardflip", "Inward Heelflip"]
  if trick_name ∈ shuv_tricks then shuv_spin_speed
  else if trick_name ∈ flip_tricks then flip_spin_speed
  else if trick_name ∈ varial_tricks then varial_spin_speed
  else 1

/-- Body of `_get_perfect_catch_frames` once `total_frames` is known: the
first `min 5 total_frames` indices, then the indices of
`range(max(0, total_frames-4), total_frames)` not already present. -/
def perfect_frames_list (total_frames : Nat) : List Nat :=
  let first_part := List.range (min 5 total_frames)
  first_part ++
    (List.range' (total_frames - 4) (total_frames - (total_frames - 4))).filter
      (fun i => i ∉ first_part)

/-- `_get_perfect_catch_frames`: `[]` when the trick has no metadata entry. -/
def get_perfect_catch_frames (meta : List (String × Nat)) (trick_name : String) :
    List Nat :=
  match assoc_find meta trick_name with
  | none => []
  | some total_frames => perfect_frames_list total_frames

example : perfect_frames_list 10 = [0, 1, 2, 3, 4, 6, 7, 8, 9] := by decide
example : get_hand_direction false true true false = .left := by decide
example : get_hand_direction false false true true = .down := by decide

/-- `do_trick`: pop/catch sounds, start the animation when the trick has
one, go airborne, and arm the catch system (`_setup_catch_system`). -/
def do_trick (s : AppState) (trick_name : String) : AppState × List Sound :=
  if s.airborne then (s, [])
  else
    let s1 :=
      if trick_name ∈ s.animation_maps then
        { s with current_animation := some trick_name, animation_frame := 0,
                 animation_timer := 0, animation_completed := false }
      else s
    ({ s1 with
        airborne := true,
        current_trick_name := some trick_name,
        original_flip_trick := some trick_name,
        trick_start_angle := s1.angle,
        landing_angle := s1.angle,
        landing_success := false,
        landing_feedback_timer := 0,
        catch_required := true,
        catch_success := false,
        catch_attempted := false,
        catch_feedback_timer := 0,
        dead := false,
        death_timer := 0,
        perfect_catch_frames := get_perfect_catch_frames s1.animation_metadata trick_name,
        catch_window_start := s1.current_time + 0.2,
        wheels_sound_playing := false },
     [Sound.pop, Sound.catchSnd])

/-- `_trigger_death`: mark the catch as an attempted miss, stop movement. -/
def trigger_death (s : AppState) : AppState × List Sound :=
  ({ s with dead := true, catch_success := false, catch_attempted := true,
            death_timer := s.current_time, move_speed := 0 },
   [Sound.death])

/-- `_check_catch_input`: catch-window logic, including expiry death and
perfect-frame scoring of a both-hands-center release. -/
def check_catch_input (s : AppState) : AppState × List Sound :=
  if !s.catch_required || !s.airborne || s.catch_attempted || s.dead then (s, [])
  else if s.current_time < s.catch_window_start then (s, [])
  else if s.current_time > s.catch_window_start + catch_window_duration then
    trigger_death s
  else if s.hands = (.center, .center) && !s.catch_attempted then
    let s1 := { s with catch_attempted := true, catch_feedback_timer := s.current_time }
    if s1.animation_frame ∈ s1.perfect_catch_frames then
      ({ s1 with catch_success := true,
                 animation_completed :=
                   if s1.current_animation.isSome then true
                   else s1.animation_completed },
       [Sound.catchSnd])
    else trigger_death s1
  else (s, [])

/-- `_update_animation`: advance the frame counter when the per-class frame
interval has elapsed, wrapping (loop) or clamping and completing. -/
def update_animation (s : AppState) : AppState :=
  match s.current_animation with
  | none => s
  | some anim =>
    match assoc_find s.animation_metadata anim with
    | none => s
    | some total_frames =>
      if s.animation_completed then s
      else
        let current_animation_speed := animation_speed / get_trick_spin_speed anim
        if s.current_time - s.animation_timer ≥ current_animation_speed then
          let should_loop := (assoc_find animation_loops anim).getD true
          let f := s.animation_frame + 1
          if f ≥ total_frames then
            if should_loop then
              { s with animation_frame := 0, animation_timer := s.current_time }
            else
              { s with animation_frame := total_frames - 1,
                       animation_completed := true,
                       animation_timer := s.current_time }
          else { s with animation_frame := f, animation_timer := s.current_time }
        else s

/-- `_check_rail_collision`: the skater reference point is within the
stretched rail bounds plus an 80-pixel buffer, and within 120 vertically. -/
def check_rail_collision (s : AppState) : Bool :=
  s.rails.any fun rail =>
    let distance_y := |s.display_center_y - rail.y|
    let rail_start_x := rail.x
    let rail_end_x := rail.x + rail.width * 6
    decide (rail_start_x - 80 ≤ s.skateboard_center_x ∧
            s.skateboard_center_x ≤ rail_end_x + 80 ∧ distance_y < 120)

/-- `_check_rail_end`: on some rail (within its stretched bounds, within 100
vertically) and within 50 pixels of that rail's far edge. -/
def check_rail_end (s : AppState) : Bool :=
  s.rails.any fun rail =>
    let rail_start_x := rail.x
    let rail_end_x := rail.x + rail.width * 6
    let distance_y := |s.display_center_y - rail.y|
    decide (rail_start_x ≤ s.skateboard_center_x ∧
            s.skateboard_center_x ≤ rail_end_x ∧ distance_y < 100 ∧
            s.skateboard_center_x ≥ rail_end_x - 50)

/-- `_land_board`: clear grind, catch, death and animation state, restore
the movement speed, reset the angle; the audio branch depends on the
`catch_success` value read before the reset. -/
def land_board (s : AppState) : AppState × List Sound :=
  let was_caught_successfully := s.catch_success
  let s1 := { s with
      in_grind_window := false, grinding := false, grind_trick := none,
      holding_grind_trick := false, pending_grind_trick := none,
      catch_required := false, catch_success := false,
      catch_attempted := false, catch_feedback_timer := 0,
      dead := false, death_timer := 0, perfect_catch_frames := [],
      original_flip_trick := none,
      move_speed := 30,
      airborne := false,
      current_animation := none, animation_frame := 0,
      animation_completed := false,
      wheels_sound_playing := false }
  (set_angle s1 0 0,
   if was_caught_successfully then [Sound.land, Sound.success] else [Sound.fail])

/-- `_exit_grind`: play a land sound, then run `_land_board` (the `reason`
argument is only logged in the source). -/
def exit_grind (s : AppState) (_reason : GrindExit) : AppState × List Sound :=
  let r := land_board s
  (r.1, Sound.land :: r.2)

/-- `_update_grinding_state`: rail-end exit first (unconditional), then
manual exit (hands center and minimum grind duration reached).  The third
component records which `_exit_grind` reason fired, if any. -/
def update_grinding_state (s : AppState) : AppState × List Sound × Option GrindExit :=
  let grind_duration := s.current_time - s.grind_start_time
  if check_rail_end s then
    let r := exit_grind s .railEnd
    (r.1, r.2, some .railEnd)
  else if s.hands = (.center, .center) ∧ grind_duration ≥ min_grind_duration then
    let r := exit_grind s .manual
    (r.1, r.2, some .manual)
  else (s, [], none)

/-- `_start_grind`: no-op without a rail nearby; otherwise set the grind
flags, clear the animation and store the grind offset. -/
def start_grind (s : AppState) (grind_name : String) : AppState × List Sound :=
  if !check_rail_collision s then (s, [])
  else
    let s1 := { s with
        grinding := true, grind_trick := some grind_name,
        in_grind_window := false, grind_start_time := s.current_time,
        current_animation := none, animation_frame := 0,
        animation_completed := false }
    let s2 :=
      match assoc_find grind_positions grind_name with
      | some grind_pos => { s1 with grind_offset := grind_pos }
      | none => s1
    (s2, [Sound.grindLoop])

/-- `_check_grind_trick_input`: release clears a pending hold; inside the
grind window, a matching combination arms or continues a hold, and a hold
reaching the dwell threshold commits via `_start_grind`. -/
def check_grind_trick_input (s : AppState) : AppState × List Sound :=
  if s.hands = (.center, .center) then
    if s.holding_grind_trick then
      ({ s with holding_grind_trick := false, pending_grind_trick := none }, [])
    else (s, [])
  else if s.current_time - s.grind_window_start_time ≥ grind_window_duration then
    (s, [])
  else
    match grind_trick_map.find? (fun p => p.2 = s.hands) with
    | none => (s, [])
    | some gp =>
      let s1 :=
        if !s.holding_grind_trick || s.pending_grind_trick ≠ some gp.1 then
          { s with holding_grind_trick := true,
                   pending_grind_trick := some gp.1,
                   grind_hold_start_time := s.current_time }
        else s
      let hold_duration := s1.current_time - s1.grind_hold_start_time
      if hold_duration ≥ grind_hold_duration then
        let r := start_grind s1 gp.1
        ({ r.1 with holding_grind_trick := false, pending_grind_trick := none }, r.2)
      else (s1, [])

/-- `_check_foot_movement_sounds`: a foot sound per hand that changed. -/
def check_foot_movement_sounds (current last : HandRegion × HandRegion) : List Sound :=
  (if current.1 ≠ last.1 then [Sound.foot1] else []) ++
  (if current.2 ≠ last.2 then [Sound.foot2] else [])

/-- `_update_trick_detection`: arm on a new non-center combination, confirm
via `do_trick` once the hold duration is reached, cancel on release; then
foot sounds and the `last_hand_combination` update. -/
def update_trick_detection (s : AppState) : AppState × List Sound :=
  if s.grinding then (s, [])
  else
    let current_combination := s.hands
    let has_combination := current_combination ≠ (.center, .center)
    let r :=
      if has_combination ∧ current_combination ≠ s.last_hand_combination then
        ({ s with trick_start_time := s.current_time }, ([] : List Sound))
      else if has_combination ∧ s.trick_start_time > 0 then
        if s.current_time - s.trick_start_time ≥ trick_hold_duration then
          match check_trick_combination current_combination with
          | some detected_trick =>
            let r1 := do_trick s detected_trick
            ({ r1.1 with trick_start_time := 0 }, r1.2)
          | none => ({ s with trick_start_time := 0 }, [])
        else (s, [])
      else if ¬has_combination ∧ s.trick_start_time > 0 then
        ({ s with trick_start_time := 0 }, [Sound.cancelTrick])
      else (s, [])
    let foot := check_foot_movement_sounds current_combination r.1.last_hand_combination
    ({ r.1 with last_hand_combination := current_combination }, r.2 ++ foot)

/-- Lines 1200–1224 of `_update_airborne_state`: grind-window expiry on a
full release, then grind-trick input, then the grinding-state update. -/
def update_airborne_tail (s : AppState) : AppState × List Sound :=
  let r1 :=
    if s.hands = (.center, .center) then
      if s.in_grind_window then
        if s.current_time - s.grind_window_start_time ≥ grind_window_duration then
          land_board s
        else (s, [])
      else if ¬s.grinding then
        (if s.current_animation.isSome then { s with animation_completed := true } else s,
         ([] : List Sound))
      else (s, [])
    else (s, [])
  let r2 := if r1.1.in_grind_window then check_grind_trick_input r1.1 else (r1.1, [])
  let r3 :=
    if r2.1.grinding then
      let u := update_grinding_state r2.1
      (u.1, u.2.1)
    else (r2.1, [])
  (r3.1, r1.2 ++ r2.2 ++ r3.2)

/-- `_update_airborne_state`: wheels audio, animation advance, catch input,
death sequence, the land-or-grind decision after a resolved catch, and the
grind-window / grinding updates. -/
def update_airborne_state (s : AppState) : AppState × List Sound :=
  if !s.airborne then
    (if s.wheels_sound_playing && s.wheels_rolling_sound then
       { s with wheels_sound_playing := false }
     else s, [])
  else
    let rw :=
      if s.wheels_rolling_sound && !s.wheels_sound_playing then
        ({ s with wheels_sound_playing := true }, [Sound.wheels])
      else (s, ([] : List Sound))
    let s1 := if rw.1.current_animation.isSome then update_animation rw.1 else rw.1
    let rc := check_catch_input s1
    let s2 := rc.1
    if s2.dead then
      if s2.current_time - s2.death_timer ≥ death_duration then
        let rl := land_board s2
        (rl.1, rw.2 ++ rc.2 ++ rl.2)
      else (s2, rw.2 ++ rc.2)
    else if s2.catch_required && s2.catch_attempted then
      if s2.catch_success then
        if check_rail_collision s2 then
          let s3 :=
            if ¬s2.in_grind_window ∧ ¬s2.grinding then
              { s2 with grind_window_start_time := s2.current_time,
                        in_grind_window := true }
            else s2
          let rt := update_airborne_tail s3
          (rt.1, rw.2 ++ rc.2 ++ rt.2)
        else
          let rl := land_board s2
          (rl.1, rw.2 ++ rc.2 ++ rl.2)
      else
        let rl := land_board s2
        (rl.1, rw.2 ++ rc.2 ++ rl.2)
    else
      let rt := update_airborne_tail s2
      (rt.1, rw.2 ++ rc.2 ++ rt.2)

/-- The hand-region priority table as documented in the specification
(section 4.2), transcribed from the spec's words for the refinement
comparison against `get_hand_direction`. -/
def hand_direction_spec (up left down right : Bool) : HandRegion :=
  if up && (left || right) then .up
  else if up then .up
  else if down && left then .left
  else if down && right then .down
  else if down then .down
  else if left then .left
  else if right then .right
  else .center

/-- Grounded: neither the airborne nor the grinding flag is set. -/
def grounded_mode (s : AppState) : Prop := s.airborne = false ∧ s.grinding = false

/-- Airborne-flying: the airborne flag without the grinding flag. -/
def flying_mode (s : AppState) : Prop := s.airborne = true ∧ s.grinding = false

/-- Grinding: both flags set (the source keeps `airborne` true during a
grind; `grinding` alone distinguishes the mode). -/
def grinding_mode (s : AppState) : Prop := s.airborne = true ∧ s.grinding = true

/-- Exactly one of the three modes holds. -/
def exactly_one_mode (s : AppState) : Prop :=
  (grounded_mode s ∧ ¬flying_mode s ∧ ¬grinding_mode s) ∨
  (¬grounded_mode s ∧ flying_mode s ∧ ¬grinding_mode s) ∨
  (¬grounded_mode s ∧ ¬flying_mode s ∧ grinding_mode s)

/-- Successive ticks of `_update_trick_detection`: each tick caches the
clock (`self._current_time`) and then runs the detector, as the main loop
does. -/
def run_trick_detection (s : AppState) (ts : List ℚ) : AppState :=
  ts.foldl (fun st t => (update_trick_detection { st with current_time := t }).1) s

/-- A state mid-flight after a successful catch, near a rail and inside the
grind window, with the grind-trick combination "Nose Grind" held: the
configuration in which `_check_grind_trick_input` commits via
`_start_grind`. -/
def c1_state : AppState :=
  { airborne := true, catch_required := true, catch_attempted := true,
    catch_success := true, in_grind_window := true,
    holding_grind_trick := true, pending_grind_trick := some "Nose Grind",
    hands := (.left, .left), last_hand_combination := (.left, .left),
    current_time := 10, grind_window_start_time := 9.5,
    grind_hold_start_time := 9.8, catch_window_start := 9,
    perfect_catch_frames := perfect_frames_list 10,
    rails := [⟨400, 500, 100, 50⟩], skateboard_center_x := 460,
    display_center_y := 540 }

/-- A state in the grind window whose duration has expired while the player
still holds a non-center combination, with a rail still nearby. -/
def c2_state : AppState :=
  { airborne := true, catch_required := true, catch_attempted := true,
    catch_success := true, in_grind_window := true,
    hands := (.left, .left), last_hand_combination := (.left, .left),
    current_time := 10, grind_window_start_time := 8, catch_window_start := 9,
    perfect_catch_frames := perfect_frames_list 10,
    rails := [⟨400, 500, 100, 50⟩], skateboard_center_x := 460,
    display_center_y := 540 }

/-- An active grind session whose rail has just reached its trailing edge
(the skater reference point is within 50 of the stretched rail end). -/
def c3_state : AppState :=
  { airborne := true, grinding := true, catch_required := true,
    catch_success := true, catch_attempted := true,
    grind_trick := some "Nose Grind", hands := (.left, .left),
    last_hand_combination := (.left, .left),
    current_time := 10, grind_start_time := 9,
    rails := [⟨0, 500, 100, 50⟩], skateboard_center_x := 580,
    display_center_y := 540 }

/-- An active grind session away from any rail end, used at several elapsed
times and hand positions. -/
def c7_state : AppState :=
  { airborne := true, grinding := true, catch_success := true,
    catch_required := true, catch_attempted := true,
    grind_trick := some "Nose Grind", hands := (.center, .center),
    last_hand_combination := (.center, .center),
    current_time := 10.29, grind_start_time := 10 }

/-- A grounded state holding the Kickflip combination, for the trick
detector, with the Kickflip animation metadata available. -/
def c8_state : AppState :=
  { hands := (.left, .down), last_hand_combination := (.left, .down),
    current_time := 5, trick_start_time := 4.9,
    animation_metadata := [("Kickflip", 10)], animation_maps := ["Kickflip"] }

/-- A grind-window state with the dwell threshold reached on a pending
"Nose Grind" hold but no rail anywhere near the skater point. -/
def c10_state : AppState :=
  { airborne := true, catch_required := true, catch_attempted := true,
    catch_success := true, in_grind_window := true,
    holding_grind_trick := true, pending_grind_trick := some "Nose Grind",
    hands := (.left, .left), last_hand_combination := (.left, .left),
    current_time := 10, grind_window_start_time := 9.5,
    grind_hold_start_time := 9.8 }

/-- A catch-required airborne state whose catch window has fully expired
with no attempt made. -/
def c6_state : AppState :=
  { airborne := true, catch_required := true,
    current_animation := some "Kickflip", animation_frame := 3,
    animation_metadata := [("Kickflip", 10)], animation_maps := ["Kickflip"],
    perfect_catch_frames := perfect_frames_list 10,
    current_time := 10, catch_window_start := 8.5 }

/-- A catch-required airborne state inside the open catch window with both
hands released to center, at animation frame 2 of a 10-frame trick. -/
def c5_state : AppState :=
  { airborne := true, catch_required := true,
    hands := (.center, .center),
    current_animation := some "Kickflip", animation_frame := 2,
    animation_metadata := [("Kickflip", 10)], animation_maps := ["Kickflip"],
    perfect_catch_frames := perfect_frames_list 10,
    current_time := 1, catch_window_start := 0.5 }

/-- The grind-window-expired state with both hands released to center. -/
def c2_center_state : AppState := { c2_state with hands := (.center, .center) }

/-- An active grind session that reached the rail's trailing edge after only
0.05 s of grinding (below the 0.3 s manual-exit minimum). -/
def c7_rail_state : AppState :=
  { airborne := true, grinding := true, catch_success := true,
    catch_required := true, catch_attempted := true,
    grind_trick := some "Nose Grind", hands := (.left, .left),
    last_hand_combination := (.left, .left),
    current_time := 10, grind_start_time := 9.95,
    rails := [⟨0, 500, 100, 50⟩], skateboard_center_x := 580,
    display_center_y := 540 }

/-- The manual-exit state of `c7_state` at elapsed 0.31 s. -/
def c7_manual_state : AppState := { c7_state with current_time := 10.31 }

/-- `c8_state` after the hold has lasted 0.25 s (past the threshold). -/
def c8_confirm_state : AppState := { c8_state with current_time := 5.15 }

/-- `c8_state` just after a confirmation reset the hold timer, the
combination still held. -/
def c8_quiet_state : AppState := { c8_state with trick_start_time := 0 }

/-- `c8_state` with the combination released back to center. -/
def c8_cancel_state : AppState := { c8_state with hands := (.center, .center) }

/-! Helper lemmas. -/

lemma pymod_eq_fract (a : ℚ) {b : ℚ} (hb : b ≠ 0) :
    pymod a b = b * Int.fract (a / b) := by
  unfold pymod
  rw [Int.fract]
  field_simp

lemma pymod_nonneg (a : ℚ) {b : ℚ} (hb : 0 < b) : 0 ≤ pymod a b := by
  rw [pymod_eq_fract a hb.ne.symm]
  exact mul_nonneg hb.le (Int.fract_nonneg _)

lemma pymod_lt (a : ℚ) {b : ℚ} (hb : 0 < b) : pymod a b < b := by
  rw [pymod_eq_fract a hb.ne.symm]
  calc b * Int.fract (a / b) < b * 1 :=
        (mul_lt_mul_left hb).mpr (Int.fract_lt_one _)
    _ = b := mul_one b

lemma pyround_nonneg {q : ℚ} (h : 0 ≤ q) : 0 ≤ pyround q := by
  have hf : (0 : ℤ) ≤ ⌊q⌋ := Int.floor_nonneg.mpr h
  unfold pyround
  split
  · split <;> omega
  · rw [round_eq]
    exact Int.floor_nonneg.mpr (by linarith)

lemma pyround_le {q : ℚ} {n : ℤ} (h : q < (n : ℚ)) : pyround q ≤ n := by
  have hf : ⌊q⌋ < n := by
    have h1 : (⌊q⌋ : ℚ) < (n : ℚ) := lt_of_le_of_lt (Int.floor_le q) h
    exact_mod_cast h1
  unfold pyround
  split
  · split <;> omega
  · rw [round_eq]
    rw [Int.floor_le_iff]
    linarith

lemma pymod_add_int_mul (a : ℚ) (k : ℤ) : pymod (a + 360 * k) 360 = pymod a 360 := by
  unfold pymod
  have hdiv : (a + 360 * k) / 360 = a / 360 + k := by
    field_simp
    ring
  rw [hdiv, Int.floor_add_int, Int.cast_add]
  ring

lemma check_catch_input_of_attempted (s : AppState) (h : s.catch_attempted = true) :
    check_catch_input s = (s, []) := by
  unfold check_catch_input
  simp [h]

lemma land_board_fst (s : AppState) :
    (land_board s).1.airborne = false ∧ (land_board s).1.grinding = false ∧
    (land_board s).1.in_grind_window = false ∧
    (land_board s).1.holding_grind_trick = false ∧
    (land_board s).1.pending_grind_trick = none ∧
    (land_board s).1.move_speed = 30 := by
  exact ⟨rfl, rfl, rfl, rfl, rfl, rfl⟩

lemma land_board_snd (s : AppState) :
    (land_board s).2 =
      if s.catch_success then [Sound.land, Sound.success] else [Sound.fail] := rfl

lemma exit_grind_snd (s : AppState) (r : GrindExit) :
    (exit_grind s r).2 =
      Sound.land ::
        (if s.catch_success then [Sound.land, Sound.success] else [Sound.fail]) := rfl

lemma do_trick_of_grounded (s : AppState) (tn : String) (h : s.airborne = false) :
    (do_trick s tn).1.airborne = true ∧
    (do_trick s tn).1.grinding = s.grinding ∧
    (do_trick s tn).1.current_trick_name = some tn ∧
    (do_trick s tn).2 = [Sound.pop, Sound.catchSnd] := by
  unfold do_trick
  rw [if_neg (by simp [h])]
  split <;> exact ⟨rfl, rfl, rfl, rfl⟩

lemma start_grind_airborne (s : AppState) (gn : String) :
    (start_grind s gn).1.airborne = s.airborne := by
  unfold start_grind
  split
  · rfl
  · split <;> rfl

lemma start_grind_of_no_rail (s : AppState) (gn : String)
    (h : check_rail_collision s = false) : start_grind s gn = (s, []) := by
  unfold start_grind
  rw [if_pos (by simp [h])]

lemma exactly_one_mode_iff (s : AppState) :
    exactly_one_mode s ↔ ¬(s.airborne = false ∧ s.grinding = true) := by
  cases hA : s.airborne <;> cases hG : s.grinding <;>
    simp [exactly_one_mode, grounded_mode, flying_mode, grinding_mode, hA, hG]

lemma utd_quiet (s : AppState) (h1 : s.trick_start_time = 0)
    (h2 : s.last_hand_combination = s.hands)
    (h3 : s.hands ≠ (.center, .center)) (h4 : s.grinding = false) :
    update_trick_detection s = (s, []) := by
  cases s
  unfold update_trick_detection check_foot_movement_sounds
  simp_all

lemma run_quiet (s : AppState) (ts : List ℚ) (h1 : s.trick_start_time = 0)
    (h2 : s.last_hand_combination = s.hands)
    (h3 : s.hands ≠ (.center, .center)) (h4 : s.grinding = false) :
    (run_trick_detection s ts).airborne = s.airborne ∧
    (run_trick_detection s ts).current_trick_name = s.current_trick_name ∧
    (run_trick_detection s ts).trick_start_time = 0 := by
  induction ts generalizing s with
  | nil => exact ⟨rfl, rfl, h1⟩
  | cons t ts ih =>
    have hstep : update_trick_detection { s with current_time := t } =
        ({ s with current_time := t }, []) := utd_quiet _ h1 h2 h3 h4
    have hrun : run_trick_detection s (t :: ts) =
        run_trick_detection { s with current_time := t } ts := by
      unfold run_trick_detection
      rw [List.foldl_cons, hstep]
    rw [hrun]
    exact ih { s with current_time := t } h1 h2 h3 h4

lemma uas_stuck (s : AppState)
    (hA : s.airborne = true) (hW : s.wheels_rolling_sound = false)
    (hAn : s.current_animation = none) (hC : s.catch_attempted = true)
    (hD : s.dead = false) (hR : s.catch_required = true)
    (hS : s.catch_success = true) (hRail : check_rail_collision s = true)
    (hGW : s.in_grind_window = true) (hG : s.grinding = false)
    (hHands : s.hands ≠ (.center, .center))
    (hExp : s.current_time - s.grind_window_start_time ≥ grind_window_duration) :
    update_airborne_state s = (s, []) := by
  have hcc : check_catch_input s = (s, []) := check_catch_input_of_attempted s hC
  have hgi : check_grind_trick_input s = (s, []) := by
    unfold check_grind_trick_input
    rw [if_neg hHands, if_pos hExp]
  unfold update_airborne_state update_airborne_tail
  simp [hA, hW, hAn, hC, hD, hR, hS, hRail, hGW, hG, hHands, hcc, hgi]

lemma uas_expired_center (s : AppState)
    (hA : s.airborne = true) (hW : s.wheels_rolling_sound = false)
    (hAn : s.current_animation = none) (hC : s.catch_attempted = true)
    (hD : s.dead = false) (hR : s.catch_required = true)
    (hS : s.catch_success = true)
    (hGW : s.in_grind_window = true) (hG : s.grinding = false)
    (hHands : s.hands = (.center, .center))
    (hExp : s.current_time - s.grind_window_start_time ≥ grind_window_duration) :
    update_airborne_state s = land_board s := by
  have hcc : check_catch_input s = (s, []) := check_catch_input_of_attempted s hC
  have hlb1 : (land_board s).1.in_grind_window = false := rfl
  have hlb2 : (land_board s).1.grinding = false := rfl
  unfold update_airborne_state update_airborne_tail
  cases hrail : check_rail_collision s <;>
    simp [hA, hW, hAn, hC, hD, hR, hS, hGW, hG, hHands, hcc, hExp, hlb1, hlb2]

lemma utd_holding_early (s : AppState) (hG : s.grinding = false)
    (hNe : s.hands ≠ (.center, .center))
    (hLast : s.last_hand_combination = s.hands) (hPos : s.trick_start_time > 0)
    (hLt : s.current_time - s.trick_start_time < trick_hold_duration) :
    update_trick_detection s = (s, []) := by
  have hcond : (trick_hold_duration ≤ s.current_time - s.trick_start_time) = False :=
    eq_false (not_le.mpr hLt)
  cases s
  dsimp only at hG hNe hLast hPos hcond
  unfold update_trick_detection check_foot_movement_sounds
  simp [hG, hNe, hLast, hPos, hcond]

lemma utd_confirm (s : AppState) (tr : String) (hG : s.grinding = false)
    (hA : s.airborne = false) (hNe : s.hands ≠ (.center, .center))
    (hLast : s.last_hand_combination = s.hands) (hPos : s.trick_start_time > 0)
    (hGe : s.current_time - s.trick_start_time ≥ trick_hold_duration)
    (hFind : check_trick_combination s.hands = some tr) :
    (update_trick_detection s).1.airborne = true ∧
    (update_trick_detection s).1.current_trick_name = some tr ∧
    (update_trick_detection s).1.trick_start_time = 0 := by
  have hd := do_trick_of_grounded s tr hA
  simp only [update_trick_detection, hG, hLast, hNe, hPos, hGe, hFind]
  simp [hNe, hd.1, hd.2.1, hd.2.2.1]

lemma utd_cancel (s : AppState) (hG : s.grinding = false)
    (hH : s.hands = (.center, .center)) (hPos : s.trick_start_time > 0) :
    (update_trick_detection s).1.trick_start_time = 0 ∧
    (update_trick_detection s).1.airborne = s.airborne ∧
    (update_trick_detection s).1.current_trick_name = s.current_trick_name ∧
    Sound.cancelTrick ∈ (update_trick_detection s).2 := by
  simp [update_trick_detection, check_foot_movement_sounds, hG, hH, hPos]

/-! Claim theorems. -/

/-- C4 (amended): the angle quantization of `get_sprite_position` always
returns a multiple of 15 that lies in the closed interval [0, 360] — the
value 360 itself is attainable, because the code normalizes into [0, 360)
first and rounds afterwards — and it is periodic:
`quantize (a + 360 k) = quantize a` for every integer `k`. -/
theorem c4_quantize (a : ℚ) (k : ℤ) :
    15 ∣ quantize a ∧ 0 ≤ quantize a ∧ quantize a ≤ 360 ∧
    quantize (a + 360 * k) = quantize a := by
  have h360 : (0 : ℚ) < 360 := by norm_num
  have hnn : (0 : ℚ) ≤ pymod a 360 / 15 :=
    div_nonneg (pymod_nonneg a h360) (by norm_num)
  have hlt : pymod a 360 / 15 < ((24 : ℤ) : ℚ) := by
    have := pymod_lt a h360
    rw [div_lt_iff₀ (by norm_num : (0:ℚ) < 15)]
    push_cast
    linarith
  refine ⟨⟨pyround (pymod a 360 / 15), mul_comm _ _⟩, ?_, ?_, ?_⟩
  · exact mul_nonneg (pyround_nonneg hnn) (by norm_num)
  · calc pyround (pymod a 360 / 15) * 15 ≤ 24 * 15 :=
          mul_le_mul_of_nonneg_right (pyround_le hlt) (by norm_num)
      _ = 360 := by norm_num
  · unfold quantize
    rw [pymod_add_int_mul]

/-- C4 counterexample: at input angle 359 the quantization returns 360,
which is a multiple of 15 but does not lie in the half-open range
[0, 360) asserted by the claim. -/
theorem c4_quantize_359 : quantize 359 = 360 ∧ ¬(quantize 359 < 360) := by
  have h1 : ⌊(359 : ℚ) / 360⌋ = 0 := by norm_num [Int.floor_eq_iff]
  have h2 : pymod 359 360 = 359 := by
    unfold pymod
    rw [h1]
    norm_num
  have h3 : ⌊(359 : ℚ) / 15⌋ = 23 := by norm_num [Int.floor_eq_iff]
  have h4 : pyround ((359 : ℚ) / 15) = 24 := by
    unfold pyround
    rw [h3, round_eq]
    norm_num [Int.floor_eq_iff]
  have h5 : quantize 359 = 360 := by
    unfold quantize
    rw [h2, h4]
    norm_num
  exact ⟨h5, by rw [h5]; norm_num⟩

/-- C9: for each hand and all 16 combinations of the four direction keys,
`_get_hand_direction` agrees with the spec's priority table, including the
asymmetric cases (up with left or right gives up, down with left gives
left, down with right gives down, single keys map to themselves, none
gives center). -/
theorem c9_hand_region_table :
    (∀ u l d r : Bool, get_hand_direction u l d r = hand_direction_spec u l d r) ∧
    get_hand_direction true true false false = .up ∧
    get_hand_direction true false false true = .up ∧
    get_hand_direction false true true false = .left ∧
    get_hand_direction false false true true = .down ∧
    get_hand_direction true false false false = .up ∧
    get_hand_direction false true false false = .left ∧
    get_hand_direction false false true false = .down ∧
    get_hand_direction false false false true = .right ∧
    get_hand_direction false false false false = .center := by
  decide

/-- C5: the perfect-catch frame set is the first `min 5 N` indices union
the last four indices (`N-4` to `N-1`), deduplicated; for `N = 10` it is
`{0,1,2,3,4,6,7,8,9}`; and a catch attempt (both hands released to center
inside the open window) sets `catch_success` exactly when the current
animation frame belongs to the state's perfect-frame set. -/
theorem c5_perfect_catch_frames (total_frames : Nat) (s : AppState) (tn : String) :
    (∀ n, assoc_find s.animation_metadata tn = some n →
      get_perfect_catch_frames s.animation_metadata tn = perfect_frames_list n) ∧
    (perfect_frames_list total_frames).toFinset =
      Finset.range (min 5 total_frames) ∪
        Finset.Ico (total_frames - 4) total_frames ∧
    perfect_frames_list 10 = [0, 1, 2, 3, 4, 6, 7, 8, 9] ∧
    (s.catch_required = true → s.airborne = true → s.catch_attempted = false →
     s.dead = false → ¬(s.current_time < s.catch_window_start) →
     ¬(s.current_time > s.catch_window_start + catch_window_duration) →
     s.hands = (.center, .center) →
     (check_catch_input s).1.catch_attempted = true ∧
     ((check_catch_input s).1.catch_success = true ↔
       s.animation_frame ∈ s.perfect_catch_frames)) := by
  refine ⟨?_, ?_, by decide, ?_⟩
  · intro n h
    unfold get_perfect_catch_frames
    rw [h]
  · ext x
    simp only [List.mem_toFinset, perfect_frames_list, List.mem_append,
      List.mem_filter, List.mem_range, List.mem_range'_1, Finset.mem_union,
      Finset.mem_range, Finset.mem_Ico, decide_eq_true_eq]
    omega
  · intro hR hA hCA hD hNlt hNgt hHands
    unfold check_catch_input
    rw [if_neg (by simp [hR, hA, hCA, hD]), if_neg hNlt, if_neg hNgt,
        if_pos (by simp [hHands, hCA])]
    by_cases hm : s.animation_frame ∈ s.perfect_catch_frames
    · simp [hm]
    · simp [hm, trigger_death]

/-- C5 witness: instantiated at a 10-frame Kickflip with a catch attempt at
frame 2 inside the window. -/
theorem c5_perfect_catch_frames_witness :
    get_perfect_catch_frames [("Kickflip", 10)] "Kickflip" = perfect_frames_list 10 ∧
    (check_catch_input c5_state).1.catch_attempted = true ∧
    ((check_catch_input c5_state).1.catch_success = true ↔
      (2 : Nat) ∈ perfect_frames_list 10) := by
  have h := c5_perfect_catch_frames 10 c5_state "Kickflip"
  have h4 := h.2.2.2 rfl rfl rfl rfl
    (by norm_num [c5_state])
    (by norm_num [c5_state, catch_window_duration])
    rfl
  exact ⟨h.1 10 (by simp [assoc_find, c5_state, List.find?]), h4.1, h4.2⟩

/-- C6: when the catch window has fully expired with no attempt made,
`_check_catch_input` triggers the death transition — the catch is marked
attempted and unsuccessful, the dead flag is set and the forward movement
speed is zeroed — and only the death sound fires; no error is surfaced. -/
theorem c6_catch_window_expiry_death (s : AppState)
    (hR : s.catch_required = true) (hA : s.airborne = true)
    (hCA : s.catch_attempted = false) (hD : s.dead = false)
    (hExp : s.current_time > s.catch_window_start + catch_window_duration) :
    (check_catch_input s).1.dead = true ∧
    (check_catch_input s).1.catch_attempted = true ∧
    (check_catch_input s).1.catch_success = false ∧
    (check_catch_input s).1.move_speed = 0 ∧
    (check_catch_input s).2 = [Sound.death] := by
  have hdur : (0 : ℚ) < catch_window_duration := by norm_num [catch_window_duration]
  have hNlt : ¬(s.current_time < s.catch_window_start) := by
    intro hlt
    linarith
  unfold check_catch_input trigger_death
  rw [if_neg (by simp [hR, hA, hCA, hD]), if_neg hNlt, if_pos hExp]
  exact ⟨rfl, rfl, rfl, rfl, rfl⟩

/-- C6 witness: the expired catch window of `c6_state`. -/
theorem c6_catch_window_expiry_death_witness :
    (check_catch_input c6_state).1.dead = true ∧
    (check_catch_input c6_state).1.catch_attempted = true ∧
    (check_catch_input c6_state).1.catch_success = false ∧
    (check_catch_input c6_state).1.move_speed = 0 ∧
    (check_catch_input c6_state).2 = [Sound.death] :=
  c6_catch_window_expiry_death c6_state rfl rfl rfl rfl
    (by norm_num [c6_state, catch_window_duration])

/-- C7: `_update_grinding_state` checks the rail end first and exits with
reason rail_end unconditionally (no minimum duration); otherwise a manual
exit happens exactly when both hands are at center and the elapsed grind
time has reached the 0.3 s minimum; otherwise nothing changes. -/
theorem c7_grind_exit_conditions (s : AppState) :
    (check_rail_end s = true →
      update_grinding_state s =
        ((exit_grind s .railEnd).1, (exit_grind s .railEnd).2, some .railEnd) ∧
      (update_grinding_state s).1.grinding = false) ∧
    (check_rail_end s = false → s.hands = (.center, .center) →
     s.current_time - s.grind_start_time ≥ min_grind_duration →
      update_grinding_state s =
        ((exit_grind s .manual).1, (exit_grind s .manual).2, some .manual) ∧
      (update_grinding_state s).1.grinding = false) ∧
    (check_rail_end s = false →
     (s.hands ≠ (.center, .center) ∨
      s.current_time - s.grind_start_time < min_grind_duration) →
      update_grinding_state s = (s, [], none)) := by
  refine ⟨?_, ?_, ?_⟩
  · intro h
    unfold update_grinding_state
    rw [if_pos h]
    exact ⟨rfl, rfl⟩
  · intro h hc hd
    unfold update_grinding_state
    rw [if_neg (by simp [h]), if_pos ⟨hc, hd⟩]
    exact ⟨rfl, rfl⟩
  · intro h hor
    unfold update_grinding_state
    rw [if_neg (by simp [h]), if_neg ?_]
    rintro ⟨hc, hd⟩
    rcases hor with h1 | h1
    · exact h1 hc
    · exact absurd hd (not_le.mpr h1)

/-- C7 witness: a rail-end exit after only 0.05 s of grinding, no exit at
elapsed 0.29 s with hands at center, and a manual exit at 0.31 s. -/
theorem c7_grind_exit_conditions_witness :
    (update_grinding_state c7_rail_state).2.2 = some .railEnd ∧
    (update_grinding_state c7_rail_state).1.grinding = false ∧
    c7_rail_state.current_time - c7_rail_state.grind_start_time < min_grind_duration ∧
    update_grinding_state c7_state = (c7_state, [], none) ∧
    (update_grinding_state c7_manual_state).2.2 = some .manual := by
  have h1 := (c7_grind_exit_conditions c7_rail_state).1
    (by norm_num [check_rail_end, c7_rail_state])
  have h2 := (c7_grind_exit_conditions c7_state).2.2 rfl
    (Or.inr (by norm_num [c7_state, min_grind_duration]))
  have h3 := (c7_grind_exit_conditions c7_manual_state).2.1 rfl rfl
    (by norm_num [c7_manual_state, c7_state, min_grind_duration])
  refine ⟨by rw [h1.1], h1.2, by norm_num [c7_rail_state, min_grind_duration], h2, by rw [h3.1]⟩

/-- C1 counterexample: from a legal airborne non-grinding state near a
rail, `_start_grind` leaves BOTH the airborne flag and the grinding flag
true — the claim's "never both flags true" reading is false on the code,
which encodes the grinding mode as airborne ∧ grinding. -/
theorem c1_start_grind_both_flags :
    c1_state.airborne = true ∧ c1_state.grinding = false ∧
    (start_grind c1_state "Nose Grind").1.airborne = true ∧
    (start_grind c1_state "Nose Grind").1.grinding = true := by
  have hrail : check_rail_collision c1_state = true := by
    norm_num [check_rail_collision, c1_state]
  have hsg : (start_grind c1_state "Nose Grind").1.airborne = true ∧
      (start_grind c1_state "Nose Grind").1.grinding = true := by
    unfold start_grind
    rw [if_neg (by simp [hrail])]
    simp [assoc_find, grind_positions, List.find?, c1_state]
  exact ⟨rfl, rfl, hsg.1, hsg.2⟩

/-- C1 (amended): with the three modes read off the flag pair — grounded =
¬airborne ∧ ¬grinding, airborne-flying = airborne ∧ ¬grinding, grinding =
airborne ∧ grinding — exactly one mode holds after `do_trick` and
`_land_board`, and after `_start_grind` whenever it runs while airborne
(its only call site); `_start_grind` keeps the airborne flag true, so the
committed grind is the both-flags-true mode, never a flagless state. -/
theorem c1_exactly_one_mode (s : AppState) (tn gn : String)
    (h : exactly_one_mode s) :
    exactly_one_mode (do_trick s tn).1 ∧
    exactly_one_mode (land_board s).1 ∧
    (s.airborne = true → exactly_one_mode (start_grind s gn).1) := by
  rw [exactly_one_mode_iff] at h
  refine ⟨?_, ?_, ?_⟩
  · rw [exactly_one_mode_iff]
    cases hA : s.airborne with
    | false =>
      have hd := do_trick_of_grounded s tn hA
      rintro ⟨h1, h2⟩
      rw [hd.1] at h1
      cases h1
    | true =>
      have heq : do_trick s tn = (s, []) := by
        unfold do_trick
        rw [if_pos (by simp [hA])]
      rw [heq]
      exact h
  · rw [exactly_one_mode_iff]
    rintro ⟨h1, h2⟩
    rw [(land_board_fst s).2.1] at h2
    cases h2
  · intro hA
    rw [exactly_one_mode_iff]
    rintro ⟨h1, h2⟩
    rw [start_grind_airborne, hA] at h1
    cases h1

/-- C1 witness: the mode invariant instantiated at `c1_state`. -/
theorem c1_exactly_one_mode_witness :
    exactly_one_mode c1_state ∧
    exactly_one_mode (do_trick c1_state "Kickflip").1 ∧
    exactly_one_mode (land_board c1_state).1 ∧
    exactly_one_mode (start_grind c1_state "Nose Grind").1 := by
  have hmode : exactly_one_mode c1_state := by
    rw [exactly_one_mode_iff]
    simp [c1_state]
  have h := c1_exactly_one_mode c1_state "Kickflip" "Nose Grind" hmode
  exact ⟨hmode, h.1, h.2.1, h.2.2 rfl⟩

/-- C2 counterexample: in `c2_state` the grind window has expired with no
committed grind while the player holds (left, left); the next
`_update_airborne_state` changes nothing — no landing is forced, the board
stays airborne with the expired window still flagged open. -/
theorem c2_expired_window_held_hands_no_landing :
    c2_state.in_grind_window = true ∧
    c2_state.current_time - c2_state.grind_window_start_time ≥ grind_window_duration ∧
    c2_state.hands ≠ (.center, .center) ∧
    update_airborne_state c2_state = (c2_state, []) ∧
    (update_airborne_state c2_state).1.airborne = true ∧
    (update_airborne_state c2_state).1.grinding = false := by
  have hrail : check_rail_collision c2_state = true := by
    norm_num [check_rail_collision, c2_state]
  have hexp : c2_state.current_time - c2_state.grind_window_start_time ≥
      grind_window_duration := by
    norm_num [c2_state, grind_window_duration]
  have hhands : c2_state.hands ≠ (.center, .center) := by
    simp [c2_state]
  have h := uas_stuck c2_state rfl rfl rfl rfl rfl rfl rfl hrail rfl rfl hhands hexp
  exact ⟨rfl, hexp, hhands, h, by rw [h]; rfl, by rw [h]; rfl⟩

/-- C2 (amended): once the grind window's duration has elapsed with no
committed grind, the next update forces a landing only when both hands are
at center; while any non-center combination is held (with the rail still
near), the update is a no-op and the landing is deferred, not forced. -/
theorem c2_grind_window_expiry (s : AppState)
    (hA : s.airborne = true) (hW : s.wheels_rolling_sound = false)
    (hAn : s.current_animation = none) (hC : s.catch_attempted = true)
    (hD : s.dead = false) (hR : s.catch_required = true)
    (hS : s.catch_success = true) (hGW : s.in_grind_window = true)
    (hG : s.grinding = false)
    (hExp : s.current_time - s.grind_window_start_time ≥ grind_window_duration) :
    (s.hands = (.center, .center) →
      (update_airborne_state s).1.airborne = false ∧
      (update_airborne_state s).1.in_grind_window = false ∧
      (update_airborne_state s).1.grinding = false) ∧
    (s.hands ≠ (.center, .center) → check_rail_collision s = true →
      update_airborne_state s = (s, [])) := by
  constructor
  · intro hh
    rw [uas_expired_center s hA hW hAn hC hD hR hS hGW hG hh hExp]
    exact ⟨(land_board_fst s).1, (land_board_fst s).2.2.1, (land_board_fst s).2.1⟩
  · intro hh hrail
    exact uas_stuck s hA hW hAn hC hD hR hS hrail hGW hG hh hExp

/-- C2 witness: with hands at center the expired window lands the board;
with hands held it does not. -/
theorem c2_grind_window_expiry_witness :
    ((update_airborne_state c2_center_state).1.airborne = false ∧
     (update_airborne_state c2_center_state).1.in_grind_window = false ∧
     (update_airborne_state c2_center_state).1.grinding = false) ∧
    update_airborne_state c2_state = (c2_state, []) := by
  have h1 := (c2_grind_window_expiry c2_center_state rfl rfl rfl rfl rfl rfl rfl rfl
    rfl (by norm_num [c2_center_state, c2_state, grind_window_duration])).1 rfl
  have h2 := (c2_grind_window_expiry c2_state rfl rfl rfl rfl rfl rfl rfl rfl
    rfl (by norm_num [c2_state, grind_window_duration])).2
    (by simp [c2_state]) (by norm_num [check_rail_collision, c2_state])
  exact ⟨h1, h2⟩

/-- C3 counterexample: exiting the grind of `c3_state` at the rail end
plays land, land, success — `_exit_grind` adds one land sound and
`_land_board`, with `catch_success` still true from the earlier catch,
plays the land sound again AND the success chime, contradicting the
claim that the chime is not replayed on this path. -/
theorem c3_rail_end_exit_replays_success_chime :
    c3_state.grinding = true ∧ c3_state.catch_success = true ∧
    check_rail_end c3_state = true ∧
    (update_grinding_state c3_state).2.2 = some .railEnd ∧
    (update_grinding_state c3_state).2.1 =
      [Sound.land, Sound.land, Sound.success] ∧
    Sound.success ∈ (update_grinding_state c3_state).2.1 := by
  have hre : check_rail_end c3_state = true := by
    norm_num [check_rail_end, c3_state]
  have hu : update_grinding_state c3_state =
      ((exit_grind c3_state .railEnd).1, (exit_grind c3_state .railEnd).2,
        some .railEnd) := by
    unfold update_grinding_state
    rw [if_pos hre]
  have hsnd : (exit_grind c3_state .railEnd).2 =
      [Sound.land, Sound.land, Sound.success] := by
    rw [exit_grind_snd]
    simp [c3_state]
  refine ⟨rfl, rfl, hre, by rw [hu], ?_, ?_⟩
  · rw [hu]
    exact hsnd
  · rw [hu]
    rw [hsnd]
    simp

/-- C3 (amended): a grind exit (`_exit_grind`, either reason) plays the
land sound and then runs `_land_board`; since `catch_success` is still
true from the catch that preceded the grind, the landing plays the land
sound a second time AND replays the success chime. -/
theorem c3_exit_grind_sounds (s : AppState) (r : GrindExit)
    (h : s.catch_success = true) :
    (exit_grind s r).2 = [Sound.land, Sound.land, Sound.success] := by
  rw [exit_grind_snd]
  simp [h]

/-- C3 witness: the manual grind exit of `c3_state`. -/
theorem c3_exit_grind_sounds_witness :
    (exit_grind c3_state .manual).2 = [Sound.land, Sound.land, Sound.success] :=
  c3_exit_grind_sounds c3_state .manual rfl

/-- C8: while grounded, a continuous hold of a valid non-center
combination never confirms before the 0.2 s hold duration; reaching the
hold duration confirms the matching trick (the board goes airborne, the
trick is recorded, the hold timer is disarmed); after the confirmation a
continuing hold never confirms again (any further sequence of ticks with
the combination still held leaves the airborne flag and recorded trick
unchanged); and releasing to center before the threshold cancels the
attempt without confirming anything. -/
theorem c8_trick_detector (s : AppState) (c : HandRegion × HandRegion)
    (tr : String) (ts : List ℚ) :
    (s.grinding = false → s.hands = c → c ≠ (.center, .center) →
     s.last_hand_combination = c → s.trick_start_time > 0 →
     s.current_time - s.trick_start_time < trick_hold_duration →
     update_trick_detection s = (s, [])) ∧
    (s.grinding = false → s.airborne = false → s.hands = c →
     c ≠ (.center, .center) → s.last_hand_combination = c →
     s.trick_start_time > 0 →
     s.current_time - s.trick_start_time ≥ trick_hold_duration →
     check_trick_combination c = some tr →
     (update_trick_detection s).1.airborne = true ∧
     (update_trick_detection s).1.current_trick_name = some tr ∧
     (update_trick_detection s).1.trick_start_time = 0) ∧
    (s.trick_start_time = 0 → s.last_hand_combination = s.hands →
     s.hands ≠ (.center, .center) → s.grinding = false →
     (run_trick_detection s ts).airborne = s.airborne ∧
     (run_trick_detection s ts).current_trick_name = s.current_trick_name ∧
     (run_trick_detection s ts).trick_start_time = 0) ∧
    (s.grinding = false → s.hands = (.center, .center) →
     s.trick_start_time > 0 →
     (update_trick_detection s).1.trick_start_time = 0 ∧
     (update_trick_detection s).1.airborne = s.airborne ∧
     (update_trick_detection s).1.current_trick_name = s.current_trick_name ∧
     Sound.cancelTrick ∈ (update_trick_detection s).2) := by
  refine ⟨?_, ?_, ?_, ?_⟩
  · intro hG hH hNe hLast hPos hLt
    subst hH
    exact utd_holding_early s hG hNe hLast hPos hLt
  · intro hG hA hH hNe hLast hPos hGe hFind
    subst hH
    exact utd_confirm s tr hG hA hNe hLast hPos hGe hFind
  · intro h1 h2 h3 h4
    exact run_quiet s ts h1 h2 h3 h4
  · intro hG hH hPos
    exact utd_cancel s hG hH hPos

/-- C8 witness: a Kickflip hold at 0.1 s does nothing; at 0.25 s it
confirms once and disarms; two further held ticks confirm nothing more;
and a release before the threshold cancels without confirming. -/
theorem c8_trick_detector_witness :
    update_trick_detection c8_state = (c8_state, []) ∧
    ((update_trick_detection c8_confirm_state).1.airborne = true ∧
     (update_trick_detection c8_confirm_state).1.current_trick_name =
       some "Kickflip" ∧
     (update_trick_detection c8_confirm_state).1.trick_start_time = 0) ∧
    ((run_trick_detection c8_quiet_state [6, 7]).airborne = false ∧
     (run_trick_detection c8_quiet_state [6, 7]).current_trick_name = none ∧
     (run_trick_detection c8_quiet_state [6, 7]).trick_start_time = 0) ∧
    ((update_trick_detection c8_cancel_state).1.trick_start_time = 0 ∧
     (update_trick_detection c8_cancel_state).1.airborne = false ∧
     Sound.cancelTrick ∈ (update_trick_detection c8_cancel_state).2) := by
  have ha := (c8_trick_detector c8_state (.left, .down) "Kickflip" []).1
    rfl rfl (by decide) rfl (by norm_num [c8_state])
    (by norm_num [c8_state, trick_hold_duration])
  have hb := (c8_trick_detector c8_confirm_state (.left, .down) "Kickflip" []).2.1
    rfl rfl rfl (by decide) rfl (by norm_num [c8_confirm_state, c8_state])
    (by norm_num [c8_confirm_state, c8_state, trick_hold_duration])
    (by decide)
  have hc := (c8_trick_detector c8_quiet_state (.left, .down) "Kickflip" [6, 7]).2.2.1
    rfl rfl (by decide) rfl
  have hd := (c8_trick_detector c8_cancel_state (.left, .down) "Kickflip" []).2.2.2
    rfl rfl (by norm_num [c8_cancel_state, c8_state])
  exact ⟨ha, hb, hc, ⟨hd.1, hd.2.1, hd.2.2.2⟩⟩

/-- C10: when the grind-hold dwell threshold is reached inside the open
grind window but no rail is near the skater point, `_start_grind` declines,
so the grinding flag stays false, yet `_check_grind_trick_input` clears the
pending grind trick and its hold anyway while leaving the window open. -/
theorem c10_commit_without_rail (s : AppState)
    (gp : String × (HandRegion × HandRegion))
    (hH : s.hands ≠ (.center, .center))
    (hWin : s.current_time - s.grind_window_start_time < grind_window_duration)
    (hFind : grind_trick_map.find? (fun p => p.2 = s.hands) = some gp)
    (hHold : s.holding_grind_trick = true)
    (hPend : s.pending_grind_trick = some gp.1)
    (hDwell : s.current_time - s.grind_hold_start_time ≥ grind_hold_duration)
    (hRail : check_rail_collision s = false)
    (hGW : s.in_grind_window = true) (hG : s.grinding = false) :
    (check_grind_trick_input s).1.grinding = false ∧
    (check_grind_trick_input s).1.holding_grind_trick = false ∧
    (check_grind_trick_input s).1.pending_grind_trick = none ∧
    (check_grind_trick_input s).1.in_grind_window = true := by
  have hsg : start_grind s gp.1 = (s, []) := start_grind_of_no_rail s gp.1 hRail
  unfold check_grind_trick_input
  rw [if_neg hH, if_neg (not_le.mpr hWin)]
  simp [hFind, hHold, hPend, hDwell, hsg, hG, hGW]

/-- C10 witness: the railless dwell-complete state `c10_state`. -/
theorem c10_commit_without_rail_witness :
    (check_grind_trick_input c10_state).1.grinding = false ∧
    (check_grind_trick_input c10_state).1.holding_grind_trick = false ∧
    (check_grind_trick_input c10_state).1.pending_grind_trick = none ∧
    (check_grind_trick_input c10_state).1.in_grind_window = true :=
  c10_commit_without_rail c10_state ("Nose Grind", (.left, .left))
    (by decide)
    (by norm_num [c10_state, grind_window_duration])
    (by decide)
    rfl rfl
    (by norm_num [c10_state, grind_hold_duration])
    rfl rfl rfl
